import Mathlib

/-!
Shallow embedding of `src/generate_index.py`: a script that lists a
directory, filters entries by recognized script extensions, partitions the
filtered list into three columns, renders an HTML index page with per-file
install commands, and writes it to `<scripts_dir>/index.html` under a
top-level `try/except`.

Python strings become Lean `String`s (literal braces are written with the
`\x7b`/`\x7d` escapes and apostrophes with `\x27`), `str.endswith` becomes a
suffix test on the character list, `math.ceil(F / 3)` on natural inputs
becomes exact ceiling division, Python slices become `drop`/`take`, and the
exception-raising listing/write operations become `Except`/`Option`-valued
oracles fed to an explicit run function.
-/

namespace GenIndex

/-- Configuration constant `scripts_dir` (line 5 of the source). -/
def scripts_dir : String := "./scripts"

/-- Configuration constant `curl_linux` (line 8). -/
def curl_linux : String := "curl -sSL"

/-- Configuration constant `curl_win` (line 9). -/
def curl_win : String := "Invoke-RestMethod"

/-- Configuration constant `base_url` (line 10). -/
def base_url : String := "https://edoardotosin.com/tools/"

/-- Python `s.endswith(t)`: `t` is a suffix of `s` (case-sensitive). -/
def pyEndsWith (s t : String) : Bool := t.data.isSuffixOf s.data

/-- The extension filter of line 57:
`file.endswith(('.sh', '.bash', '.py', '.pyw', '.ps1'))`. -/
def isScript (f : String) : Bool :=
  pyEndsWith f ".sh" || pyEndsWith f ".bash" || pyEndsWith f ".py" ||
    pyEndsWith f ".pyw" || pyEndsWith f ".ps1"

/-- The allowlist tuple of line 57, in source order. -/
def recognized_suffixes : List String := [".sh", ".bash", ".py", ".pyw", ".ps1"]

/-- The binding `files = [file for file in os.listdir(scripts_dir) if
file.endswith((...))]` of line 57, as a function of the directory listing. -/
def filesOf (listing : List String) : List String := listing.filter isScript

/-- Which branch of the conditional-expression cascade of lines 24-48 a
file name selects. -/
inductive Branch where
  | shell
  | python
  | powershell
  | unsupported
  deriving DecidableEq

/-- The branch dispatch of lines 30, 36, 42 (tested in source order). -/
def branchOf (file : String) : Branch :=
  if pyEndsWith file ".sh" || pyEndsWith file ".bash" then Branch.shell
  else if pyEndsWith file ".py" || pyEndsWith file ".pyw" then Branch.python
  else if pyEndsWith file ".ps1" then Branch.powershell
  else Branch.unsupported

/-- The install command embedded in each branch's button `title`
(lines 27, 33, 39, 45): `{curl_linux} '{base_url}{file}' | bash`, etc. -/
def installCommand (file : String) : String :=
  match branchOf file with
  | Branch.shell => curl_linux ++ " \x27" ++ base_url ++ file ++ "\x27 | bash"
  | Branch.python => curl_linux ++ " \x27" ++ base_url ++ file ++ "\x27 | python3"
  | Branch.powershell => curl_win ++ " \x27" ++ base_url ++ file ++ "\x27 | Invoke-Expression"
  | Branch.unsupported => "Unsupported file type"

/-- The `<li>` template of lines 25-29 (shell branch), whitespace included. -/
def liShell (file : String) : String :=
  "\n            <li>\n                <button onclick=\"copyCommand(\x27" ++ file ++
    "\x27)\" title=\"Click to copy command: " ++ curl_linux ++ " \x27" ++ base_url ++ file ++
    "\x27 | bash\">Copy</button>\n                <a href=\"" ++ file ++ "\">" ++ file ++
    "</a>\n            </li>\n            "

/-- The `<li>` template of lines 31-35 (python branch). -/
def liPython (file : String) : String :=
  "\n            <li>\n                <button onclick=\"copyCommand(\x27" ++ file ++
    "\x27)\" title=\"Click to copy command: " ++ curl_linux ++ " \x27" ++ base_url ++ file ++
    "\x27 | python3\">Copy</button>\n                <a href=\"" ++ file ++ "\">" ++ file ++
    "</a>\n            </li>\n            "

/-- The `<li>` template of lines 37-41 (powershell branch). -/
def liPowershell (file : String) : String :=
  "\n            <li>\n                <button onclick=\"copyCommand(\x27" ++ file ++
    "\x27)\" title=\"Click to copy command: " ++ curl_win ++ " \x27" ++ base_url ++ file ++
    "\x27 | Invoke-Expression\">Copy</button>\n                <a href=\"" ++ file ++ "\">" ++
    file ++ "</a>\n            </li>\n            "

/-- The fallback `<li>` template of lines 43-47. -/
def liUnsupported (file : String) : String :=
  "\n            <li>\n                <button onclick=\"alert(\x27Unsupported file type!\x27)\" title=\"Unsupported file type\">Copy</button>\n                <a href=\"" ++
    file ++ "\">" ++ file ++ "</a>\n            </li>\n            "

/-- One list item (the conditional expression of lines 25-48). -/
def listItem (file : String) : String :=
  match branchOf file with
  | Branch.shell => liShell file
  | Branch.python => liPython file
  | Branch.powershell => liPowershell file
  | Branch.unsupported => liUnsupported file

/-- `num_columns = 3` (line 14). -/
def num_columns : Nat := 3

/-- `num_per_column = math.ceil(num_files / num_columns)` (line 16),
as exact ceiling division on naturals. -/
def num_per_column (num_files : Nat) : Nat :=
  (num_files + num_columns - 1) / num_columns

/-- Python slice `l[a:b]` for natural indices. -/
def pySlice (l : List String) (a b : Nat) : List String := (l.drop a).take (b - a)

/-- `column_files = files[start_index:end_index]` for column `i`
(lines 20-22). -/
def column (files : List String) (i : Nat) : List String :=
  pySlice files (i * num_per_column files.length)
    (min ((i + 1) * num_per_column files.length) files.length)

/-- The list of the three column slices (the loop of lines 18-22). -/
def columnsOf (files : List String) : List (List String) :=
  (List.range num_columns).map (column files)

/-- Python `sep.join(parts)`: empty for no parts, no trailing separator. -/
def joinSep (sep : String) : List String → String
  | [] => ""
  | [x] => x
  | x :: xs => x ++ sep ++ joinSep sep xs

/-- `column_items = '\n'.join(... for file in column_files)` (lines 24-49). -/
def columnItems (col : List String) : String :=
  joinSep "\n" (col.map listItem)

/-- `f'<ul>{column_items}</ul>'` (line 51). -/
def columnUl (col : List String) : String := "<ul>" ++ columnItems col ++ "</ul>"

/-- `f'<div style="float:left; width:33%;">{column}</div>'` (line 53). -/
def columnDiv (col : List String) : String :=
  "<div style=\"float:left; width:33%;\">" ++ columnUl col ++ "</div>"

/-- `generate_list_items` (lines 13-53). -/
def generate_list_items (files : List String) : String :=
  joinSep "\n" ((columnsOf files).map columnDiv)

/-- The lines of the HTML template (lines 59-174) that precede the
`{list_items}` splice, excluding the opening `<!DOCTYPE html>` line. -/
def page_head_lines : List String :=
  ["<html lang=\"en\">",
   "<head>",
   "    <meta http-equiv=\"Content-Type\" content=\"text/html; charset=UTF-8\">",
   "    <meta name=\"viewport\" content=\"width=device-width, initial-scale=1.0\">",
   "    <meta content=\"Automation Tools\" property=\"og:site_name\">",
   "    <meta content=\"Computer Science Odyssey: Unraveling the Tech Maze\" property=\"og:tagline\" name=\"tagline\">",
   "    <meta content=\"Welcome to my personal tech hub! This website is a reflection of my journey in the fascinating world of technology. The blog section is a curated collection of posts demonstrating my ability to cre...\" property=\"og:description\" name=\"description\">",
   "    <meta content=\"Edoardo Tosin\" property=\"article:author\">",
   "    <meta property=\"og:image\" content=\"https://edoardotosin.com/assets/img/OGImg.jpg\">",
   "    <meta content=\"Automation Tools\" property=\"og:title\">",
   "    <meta content=\"article\" property=\"og:type\">",
   "    <meta content=\"https://edoardotosin.com/tools\" property=\"og:url\">",
   "    <link rel=\"canonical\" href=\"https://edoardotosin.com/tools\">",
   "    <title>Automation Tools - Edoardo Tosin</title>",
   "    <!-- Style -->",
   "    <link href=\"../assets/css/style.css\" rel=\"stylesheet\" media=\"all\" class=\"default\" />",
   "    <link href=\"../assets/css/main.css\" rel=\"stylesheet\" media=\"all\" class=\"default\" />",
   "    <link href=\"../assets/css/Util.css\" rel=\"stylesheet\" media=\"all\" class=\"default\" />",
   "    <style>",
   "        body \x7b",
   "            font-family: Arial, sans-serif;",
   "        \x7d",
   "        h1 \x7b",
   "            text-align: center;",
   "        \x7d",
   "        ul \x7b",
   "            list-style-type: none;",
   "            padding: 0;",
   "        \x7d",
   "        li \x7b",
   "            margin: 5px 0;",
   "            display: flex;",
   "            align-items: center;",
   "        \x7d",
   "        a \x7b",
   "            margin-left: 10px;",
   "            text-decoration: none;",
   "            color: #007BFF;",
   "        \x7d",
   "        a:hover \x7b",
   "            text-decoration: underline;",
   "        \x7d",
   "        button \x7b",
   "            margin-left: 10px;",
   "            padding: 5px 10px;",
   "            cursor: pointer;",
   "            background-color: #007BFF;",
   "            color: #FFF;",
   "            border: none;",
   "            border-radius: 3px;",
   "        \x7d",
   "        button:hover \x7b",
   "            background-color: #0056b3;",
   "        \x7d",
   "        .copy-notification \x7b",
   "            position: fixed;",
   "            top: 20em; /* Adjusted position to avoid overlapping with the title */",
   "            left: 50%;",
   "            transform: translateX(-50%);",
   "            display: none;",
   "            padding: 10px;",
   "            background-color: #dff0d8;",
   "            color: #3c763d;",
   "            border: 1px solid #d6e9c6;",
   "            border-radius: 4px;",
   "            text-align: center;",
   "            width: fit-content;",
   "        \x7d",
   "        .column \x7b",
   "            float: left;",
   "            width: 33.33%;",
   "        \x7d",
   "    </style>",
   "    <!-- Twitter -->",
   "    <meta name=\"twitter:card\" content=\"summary_large_image\">",
   "    <meta name=\"twitter:site\" content=\"@EdoardoTosin\">",
   "    <meta name=\"twitter:creator\" content=\"@EdoardoTosin\">",
   "    <meta name=\"twitter:title\" content=\"Automation Tools\">",
   "    <meta name=\"twitter:description\" content=\"Welcome to my personal tech hub! This website is a reflection of my journey in the fascinating world of technology. The blog section is a curated collection of posts demonstrati...\">",
   "    <meta property=\"twitter:image\" content=\"https://edoardotosin.com/assets/img/OGImg.jpg\">",
   "</head>",
   "<body>",
   "    <h1>Automation Tools</h1>",
   "    <div class=\"copy-notification\" id=\"copyNotification\">Command copied to clipboard!</div>"]

/-- Everything of the template before the `{list_items}` splice. -/
def page_head : String :=
  "<!DOCTYPE html>\n" ++ joinSep "\n" page_head_lines ++ "\n    "

/-- The lines of the template after the `{list_items}` splice, excluding the
closing `</html>` line; the `{base_url}`, `{curl_linux}` and `{curl_win}`
splices of the original f-string appear as concatenations. -/
def page_tail_lines : List String :=
  ["    <script>",
   "        function copyCommand(filename) \x7b",
   "            const baseUrl = \x27" ++ base_url ++ "\x27;",
   "            let command;",
   "",
   "            if (filename.endsWith(\x27.sh\x27) || filename.endsWith(\x27.bash\x27)) \x7b",
   "                command = `" ++ curl_linux ++ " \"$\x7bbaseUrl\x7d$\x7bfilename\x7d\" | bash`;",
   "            \x7d else if (filename.endsWith(\x27.py\x27) || filename.endsWith(\x27.pyw\x27)) \x7b",
   "                command = `" ++ curl_linux ++ " \"$\x7bbaseUrl\x7d$\x7bfilename\x7d\" | python3`;",
   "            \x7d else if (filename.endsWith(\x27.ps1\x27)) \x7b",
   "                command = `" ++ curl_win ++ " \"$\x7bbaseUrl\x7d$\x7bfilename\x7d\" | Invoke-Expression`;",
   "            \x7d else \x7b",
   "                alert(\x27Unsupported file type!\x27);",
   "                return;",
   "            \x7d",
   "",
   "            navigator.clipboard.writeText(command).then(() => \x7b",
   "                const notification = document.getElementById(\x27copyNotification\x27);",
   "                notification.style.display = \x27block\x27;",
   "                setTimeout(() => \x7b",
   "                    notification.style.display = \x27none\x27;",
   "                \x7d, 2000);",
   "            \x7d, (err) => \x7b",
   "                alert(\x27Failed to copy!\x27, err);",
   "            \x7d);",
   "        \x7d",
   "    </script>",
   "</body>"]

/-- Everything of the template after the `{list_items}` splice. -/
def page_tail : String :=
  "\n" ++ joinSep "\n" page_tail_lines ++ "\n" ++ "</html>\n"

/-- `html_content` (lines 59-174), as a function of the filtered file list. -/
def html_content (files : List String) : String :=
  page_head ++ generate_list_items files ++ page_tail

/-- The document produced from a raw directory listing (lines 57-174). -/
def run_output (listing : List String) : String := html_content (filesOf listing)

/-- `os.path.join(scripts_dir, 'index.html')` (line 176): `scripts_dir` does
not end in a separator, so join inserts one. -/
def index_path : String := scripts_dir ++ "/" ++ "index.html"

/-- The success message of line 178. -/
def success_msg : String := "HTML file generated successfully!"

/-- Observable outcome of one invocation of the script: the final file
system (path to contents), the lines printed, and the process exit status. -/
structure RunResult where
  fileSys : String → Option String
  stdout : List String
  exitCode : Nat

/-- The `try/except` block of lines 56-181. The directory listing and the
file write are the two fallible operations; each is given as an oracle
(`Except`/`Option` failure message). On any failure the handler of lines
180-181 prints `Error: <description>` and the script ends normally
(exit status 0); otherwise the rendered document is written to `index_path`
(`open(..., 'w')` truncates, so any previous content is replaced) and the
success line is printed. -/
def runScript (listing : Except String (List String)) (writeErr : Option String)
    (fs0 : String → Option String) : RunResult :=
  match listing with
  | Except.error e => ⟨fs0, ["Error: " ++ e], 0⟩
  | Except.ok l =>
    match writeErr with
    | some e => ⟨fs0, ["Error: " ++ e], 0⟩
    | none =>
      ⟨fun p => if p = index_path then some (run_output l) else fs0 p, [success_msg], 0⟩

/-- Number of positions at which `pat` occurs as a contiguous substring. -/
def countOcc (pat : List Char) : List Char → Nat
  | [] => 0
  | c :: rest => (if pat.isPrefixOf (c :: rest) then 1 else 0) + countOcc pat rest

/-- The chunks whose concatenation is `joinSep "\n" ls`: the elements of
`ls` interleaved with `"\n"` separators. -/
def interChunks : List String → List String
  | [] => []
  | [x] => [x]
  | x :: xs => x :: "\n" :: interChunks xs

/-- `tailOk pat c` holds when `c` does not end with a proper nonempty
prefix of `pat`, so no occurrence of `pat` can start inside `c` and spill
over into whatever is appended after it. -/
def tailOk (pat : List Char) (c : List Char) : Bool :=
  (List.range pat.length).all (fun k => k == 0 || ! ((pat.take k).isSuffixOf c))

/-- The full output document for an empty filtered list, as a flat list of
short chunks (used to count substring occurrences chunk by chunk). -/
def emptyDocChunks : List String :=
  ["<!DOCTYPE html>\n"] ++ interChunks page_head_lines ++
    ["\n    ", generate_list_items [], "\n"] ++ interChunks page_tail_lines ++
    ["\n", "</html>\n"]

/-- The uppercase form of a lowercase ASCII letter (identity otherwise). -/
def upperChar (c : Char) : Char :=
  if c.isLower then Char.ofNat (c.toNat - 32) else c

/-- The lowercase form of an uppercase ASCII letter (identity otherwise). -/
def lowerChar (c : Char) : Char :=
  if c.isUpper then Char.ofNat (c.toNat + 32) else c

/-- `caseVariantL v s`: `v` is obtained from `s` by uppercasing some of its
(lowercase) characters. -/
def caseVariantL : List Char → List Char → Bool
  | [], [] => true
  | a :: as, b :: bs => (a == b || a == upperChar b) && caseVariantL as bs
  | _, _ => false

/-! Helper lemmas. -/

lemma countOcc_nil (pat : List Char) : countOcc pat [] = 0 := rfl

lemma countOcc_cons (pat : List Char) (c : Char) (l : List Char) :
    countOcc pat (c :: l) = (if pat.isPrefixOf (c :: l) then 1 else 0) + countOcc pat l := rfl

lemma take_of_prefix_le {α : Type} {pat x b : List α} (h : pat <+: x ++ b)
    (hlen : pat.length ≤ x.length) : pat <+: x := by
  rw [List.prefix_iff_eq_take] at h ⊢
  rw [List.take_append_eq_append_take, Nat.sub_eq_zero_of_le hlen, List.take_zero,
    List.append_nil] at h
  exact h

lemma countOcc_append (pat a b : List Char)
    (h : ∀ k, 0 < k → k < pat.length → ¬ ((pat.take k <:+ a) ∧ (pat.drop k <+: b))) :
    countOcc pat (a ++ b) = countOcc pat a + countOcc pat b := by
  induction a with
  | nil => simp [countOcc_nil]
  | cons c a ih =>
    have hsub : ∀ k, 0 < k → k < pat.length → ¬ ((pat.take k <:+ a) ∧ (pat.drop k <+: b)) := by
      intro k hk hk2 hkk
      exact h k hk hk2 ⟨hkk.1.trans (List.suffix_cons c a), hkk.2⟩
    rw [List.cons_append, countOcc_cons, countOcc_cons, ih hsub]
    have hif : pat.isPrefixOf (c :: (a ++ b)) = pat.isPrefixOf (c :: a) := by
      cases hp : pat.isPrefixOf (c :: a) with
      | true =>
        rw [List.isPrefixOf_iff_prefix] at hp ⊢
        exact hp.trans (by rw [← List.cons_append]; exact List.prefix_append _ _)
      | false =>
        cases hq : pat.isPrefixOf (c :: (a ++ b)) with
        | false => rfl
        | true =>
          exfalso
          rw [List.isPrefixOf_iff_prefix] at hq
          rw [← List.cons_append] at hq
          rcases Nat.le_total pat.length (c :: a).length with hle | hge
          · have := take_of_prefix_le hq hle
            rw [← List.isPrefixOf_iff_prefix] at this
            rw [this] at hp
            exact Bool.false_ne_true hp.symm
          · by_cases heq : pat.length = (c :: a).length
            · have := take_of_prefix_le hq (Nat.le_of_eq heq)
              rw [← List.isPrefixOf_iff_prefix] at this
              rw [this] at hp
              exact Bool.false_ne_true hp.symm
            · have hlt : (c :: a).length < pat.length := by omega
              have htake : pat.take (c :: a).length = c :: a := by
                rw [List.prefix_iff_eq_take] at hq
                rw [hq, List.take_take, Nat.min_eq_left (Nat.le_of_lt hlt),
                  List.take_left' rfl]
              have hsuffix : pat.take (c :: a).length <:+ c :: a := by
                rw [htake]
              have hdropb : pat.drop (c :: a).length <+: b := by
                rcases hq with ⟨t, ht⟩
                refine ⟨t, ?_⟩
                have hpat : pat = (c :: a) ++ pat.drop (c :: a).length := by
                  conv_lhs => rw [← List.take_append_drop (c :: a).length pat]
                  rw [htake]
                rw [hpat, List.append_assoc] at ht
                exact List.append_cancel_left ht
              exact h (c :: a).length (Nat.succ_pos _) hlt ⟨hsuffix, hdropb⟩
    rw [hif]
    omega

lemma countOcc_chunks (pat : List Char) (chunks : List String)
    (h : chunks.all (fun c => tailOk pat c.data) = true) :
    countOcc pat ((chunks.map String.data).flatten) =
      (chunks.map (fun c => countOcc pat c.data)).sum := by
  induction chunks with
  | nil => simp [countOcc_nil]
  | cons c cs ih =>
    simp only [List.all_cons, Bool.and_eq_true] at h
    simp only [List.map_cons, List.flatten_cons, List.sum_cons]
    rw [countOcc_append, ih h.2]
    intro k hk hklen hkk
    have h1 := h.1
    unfold tailOk at h1
    rw [List.all_eq_true] at h1
    have h2 := h1 k (List.mem_range.mpr hklen)
    simp only [beq_iff_eq, Bool.or_eq_true, Bool.not_eq_true', decide_eq_true_eq] at h2
    rcases h2 with h2 | h2
    · omega
    · rw [Bool.eq_false_iff] at h2
      exact h2 (by rw [List.isSuffixOf_iff_suffix]; exact hkk.1)

lemma joinSep_data (ls : List String) :
    (joinSep "\n" ls).data = ((interChunks ls).map String.data).flatten := by
  induction ls with
  | nil => rfl
  | cons x xs ih =>
    cases xs with
    | nil => simp [joinSep, interChunks]
    | cons y ys =>
      show (x ++ "\n" ++ joinSep "\n" (y :: ys)).data = _
      rw [String.data_append, String.data_append, ih]
      simp [interChunks, List.append_assoc]

lemma suffix_incomp {n a b : List Char} (ha : a <:+ n) (hb : b <:+ n)
    (h1 : ¬ a <:+ b) (h2 : ¬ b <:+ a) : False := by
  rcases List.suffix_or_suffix_of_suffix ha hb with h | h
  exacts [h1 h, h2 h]

lemma ends_false_of_incomp (name : String) (a : List Char) (s : String)
    (ha : a.isSuffixOf name.data = true)
    (h1 : ¬ a <:+ s.data) (h2 : ¬ s.data <:+ a) : pyEndsWith name s = false := by
  cases hx : pyEndsWith name s with
  | false => rfl
  | true =>
    exfalso
    unfold pyEndsWith at hx
    rw [List.isSuffixOf_iff_suffix] at hx ha
    exact suffix_incomp ha hx h1 h2

lemma isScript_false_of_suffix (name : String) (v : List Char)
    (hv : v.isSuffixOf name.data = true)
    (h1 : ¬ v <:+ ".sh".data) (h2 : ¬ ".sh".data <:+ v)
    (h3 : ¬ v <:+ ".bash".data) (h4 : ¬ ".bash".data <:+ v)
    (h5 : ¬ v <:+ ".py".data) (h6 : ¬ ".py".data <:+ v)
    (h7 : ¬ v <:+ ".pyw".data) (h8 : ¬ ".pyw".data <:+ v)
    (h9 : ¬ v <:+ ".ps1".data) (h10 : ¬ ".ps1".data <:+ v) :
    isScript name = false := by
  unfold isScript
  rw [ends_false_of_incomp name v ".sh" hv h1 h2,
    ends_false_of_incomp name v ".bash" hv h3 h4,
    ends_false_of_incomp name v ".py" hv h5 h6,
    ends_false_of_incomp name v ".pyw" hv h7 h8,
    ends_false_of_incomp name v ".ps1" hv h9 h10]
  rfl

lemma map_lower_of_caseVariant (vd : List Char) :
    ∀ sd : List Char, caseVariantL vd sd = true →
      (∀ c ∈ sd, lowerChar c = c ∧ lowerChar (upperChar c) = c) →
      vd.map lowerChar = sd := by
  induction vd with
  | nil =>
    intro sd h _
    cases sd with
    | nil => rfl
    | cons b bs => simp [caseVariantL] at h
  | cons a as ih =>
    intro sd h hsl
    cases sd with
    | nil => simp [caseVariantL] at h
    | cons b bs =>
      simp only [caseVariantL, Bool.and_eq_true, Bool.or_eq_true, beq_iff_eq] at h
      obtain ⟨hab, hrest⟩ := h
      have hb := hsl b (List.mem_cons_self b bs)
      simp only [List.map_cons]
      congr 1
      · rcases hab with rfl | rfl
        · exact hb.1
        · exact hb.2
      · exact ih bs hrest (fun c hc => hsl c (List.mem_cons_of_mem b hc))

lemma not_ends_of_variant (name : String) (vd sd : List Char) (t : String)
    (hlow : vd.map lowerChar = sd)
    (hne : vd ≠ sd)
    (hv : vd <:+ name.data)
    (htlow : t.data.map lowerChar = t.data)
    (h1 : sd <:+ t.data → sd = t.data)
    (h2 : t.data <:+ sd → t.data = sd) :
    pyEndsWith name t = false := by
  cases hx : pyEndsWith name t with
  | false => rfl
  | true =>
    exfalso
    unfold pyEndsWith at hx
    rw [List.isSuffixOf_iff_suffix] at hx
    rcases List.suffix_or_suffix_of_suffix hv hx with hAB | hAB
    · have hm := List.IsSuffix.map lowerChar hAB
      rw [hlow, htlow] at hm
      have heq := h1 hm
      have hlen : vd.length = t.data.length := by
        rw [← heq, ← hlow, List.length_map]
      exact hne ((hAB.eq_of_length hlen).trans heq.symm)
    · have hm := List.IsSuffix.map lowerChar hAB
      rw [hlow, htlow] at hm
      have heq := h2 hm
      have hlen : t.data.length = vd.length := by
        rw [heq, ← hlow, List.length_map]
      exact hne ((hAB.eq_of_length hlen).symm.trans heq)

lemma isScript_false_of_variant (name : String) (vd sd : List Char)
    (hlow : vd.map lowerChar = sd)
    (hne : vd ≠ sd)
    (hv : vd <:+ name.data)
    (hfacts : ∀ t ∈ recognized_suffixes,
      t.data.map lowerChar = t.data ∧ (sd <:+ t.data → sd = t.data) ∧
        (t.data <:+ sd → t.data = sd)) :
    isScript name = false := by
  have key : ∀ t ∈ recognized_suffixes, pyEndsWith name t = false := by
    intro t ht
    obtain ⟨a1, a2, a3⟩ := hfacts t ht
    exact not_ends_of_variant name vd sd t hlow hne hv a1 a2 a3
  unfold isScript
  rw [key ".sh" (by simp [recognized_suffixes]),
    key ".bash" (by simp [recognized_suffixes]),
    key ".py" (by simp [recognized_suffixes]),
    key ".pyw" (by simp [recognized_suffixes]),
    key ".ps1" (by simp [recognized_suffixes])]
  rfl

lemma F_le_three_npc (F : Nat) : F ≤ 3 * num_per_column F := by
  simp only [num_per_column, num_columns]
  omega

lemma columnsOf_eq (l : List String) : columnsOf l = [column l 0, column l 1, column l 2] := rfl

lemma columns_join (l : List String) : (columnsOf l).flatten = l := by
  have h3 : l.length ≤ 3 * num_per_column l.length := F_le_three_npc l.length
  have c0 : column l 0 = l.take (num_per_column l.length) := by
    unfold column pySlice
    simp only [Nat.zero_mul, Nat.zero_add, Nat.one_mul, List.drop_zero, Nat.sub_zero]
    rcases Nat.le_total (num_per_column l.length) l.length with h | h
    · rw [Nat.min_eq_left h]
    · rw [Nat.min_eq_right h, List.take_length, List.take_of_length_le h]
  have c2 : column l 2 = l.drop (2 * num_per_column l.length) := by
    unfold column pySlice
    have hmin : min ((2 + 1) * num_per_column l.length) l.length = l.length :=
      Nat.min_eq_right (by omega)
    rw [hmin]
    apply List.take_of_length_le
    rw [List.length_drop]
  have c1 : column l 1 ++ column l 2 = l.drop (num_per_column l.length) := by
    rw [c2]
    unfold column pySlice
    have hdd : l.drop (2 * num_per_column l.length) =
        (l.drop (num_per_column l.length)).drop (num_per_column l.length) := by
      rw [List.drop_drop]
      congr 1
      omega
    rw [hdd]
    rcases Nat.le_total (2 * num_per_column l.length) l.length with h | h
    · have e1 : min ((1 + 1) * num_per_column l.length) l.length -
          1 * num_per_column l.length = num_per_column l.length := by omega
      rw [e1, Nat.one_mul]
      exact List.take_append_drop _ _
    · have e1 : min ((1 + 1) * num_per_column l.length) l.length -
          1 * num_per_column l.length = l.length - num_per_column l.length := by omega
      rw [e1, Nat.one_mul]
      have ht : (l.drop (num_per_column l.length)).take
          (l.length - num_per_column l.length) = l.drop (num_per_column l.length) := by
        apply List.take_of_length_le
        rw [List.length_drop]
      have hd : (l.drop (num_per_column l.length)).drop (num_per_column l.length) = [] := by
        apply List.drop_eq_nil_of_le
        rw [List.length_drop]
        omega
      rw [ht, hd, List.append_nil]
  calc (columnsOf l).flatten
      = column l 0 ++ (column l 1 ++ (column l 2 ++ [])) := by rw [columnsOf_eq]; rfl
    _ = column l 0 ++ (column l 1 ++ column l 2) := by rw [List.append_nil]
    _ = l.take (num_per_column l.length) ++ l.drop (num_per_column l.length) := by
        rw [c0, c1]
    _ = l := List.take_append_drop _ _

lemma column_length (l : List String) (i : Nat) :
    (column l i).length =
      min ((i + 1) * num_per_column l.length) l.length - i * num_per_column l.length := by
  unfold column pySlice
  rw [List.length_take, List.length_drop]
  omega

lemma branchOf_shell (f : String)
    (h : pyEndsWith f ".sh" = true ∨ pyEndsWith f ".bash" = true) :
    branchOf f = Branch.shell := by
  unfold branchOf
  rcases h with h | h <;> simp [h]

lemma branchOf_python (f : String)
    (h : pyEndsWith f ".py" = true ∨ pyEndsWith f ".pyw" = true) :
    branchOf f = Branch.python := by
  rcases h with h | h
  · have e1 : pyEndsWith f ".sh" = false :=
      ends_false_of_incomp f ".py".data ".sh" h (by decide) (by decide)
    have e2 : pyEndsWith f ".bash" = false :=
      ends_false_of_incomp f ".py".data ".bash" h (by decide) (by decide)
    unfold branchOf
    simp [e1, e2, h]
  · have e1 : pyEndsWith f ".sh" = false :=
      ends_false_of_incomp f ".pyw".data ".sh" h (by decide) (by decide)
    have e2 : pyEndsWith f ".bash" = false :=
      ends_false_of_incomp f ".pyw".data ".bash" h (by decide) (by decide)
    unfold branchOf
    simp [e1, e2, h]

lemma branchOf_powershell (f : String) (h : pyEndsWith f ".ps1" = true) :
    branchOf f = Branch.powershell := by
  have e1 : pyEndsWith f ".sh" = false :=
    ends_false_of_incomp f ".ps1".data ".sh" h (by decide) (by decide)
  have e2 : pyEndsWith f ".bash" = false :=
    ends_false_of_incomp f ".ps1".data ".bash" h (by decide) (by decide)
  have e3 : pyEndsWith f ".py" = false :=
    ends_false_of_incomp f ".ps1".data ".py" h (by decide) (by decide)
  have e4 : pyEndsWith f ".pyw" = false :=
    ends_false_of_incomp f ".ps1".data ".pyw" h (by decide) (by decide)
  unfold branchOf
  simp [e1, e2, e3, e4, h]

/-! The claims. -/

/-- C1: Partition correctness. For every filtered file list `fs` with
`F = fs.length` and `N = num_columns = 3`: column `i` is exactly the slice
`fs[i*⌈F/N⌉ : min((i+1)*⌈F/N⌉, F)]`; the concatenation of the columns in
order equals the input list (so every file lands in exactly one column,
none duplicated or dropped, which the occurrence-count conjunct makes
explicit); every column has at most `⌈F/N⌉` entries; once a column is not
full, all later columns are empty; and the column sizes sum to `F`. -/
theorem partition_columns_correct (fs : List String) :
    (∀ i, i < num_columns →
      column fs i = pySlice fs (i * num_per_column fs.length)
        (min ((i + 1) * num_per_column fs.length) fs.length)) ∧
    (columnsOf fs).flatten = fs ∧
    (∀ f : String, ((columnsOf fs).map (List.count f)).sum = fs.count f) ∧
    (∀ i, i < num_columns → (column fs i).length ≤ num_per_column fs.length) ∧
    (∀ i j, i < j → j < num_columns →
      (column fs i).length < num_per_column fs.length → column fs j = []) ∧
    ((columnsOf fs).map List.length).sum = fs.length := by
  refine ⟨fun i _ => rfl, columns_join fs, ?_, ?_, ?_, ?_⟩
  · intro f
    conv_rhs => rw [← columns_join fs]
    rw [List.count_flatten]
  · intro i hi
    simp only [num_columns] at hi
    rw [column_length]
    interval_cases i <;> omega
  · intro i j hij hj hlen
    simp only [num_columns] at hj
    rw [column_length] at hlen
    have hlen0 : (column fs j).length = 0 := by
      rw [column_length]
      interval_cases j <;> interval_cases i <;> omega
    exact List.eq_nil_of_length_eq_zero hlen0
  · conv_rhs => rw [← columns_join fs]
    rw [List.length_flatten]

theorem partition_columns_correct_witness : column ["a.sh"] 2 = [] :=
  (partition_columns_correct ["a.sh"]).2.2.2.2.1 1 2 (by omega) (by decide) (by decide)

/-- C3: Scan filter. A directory entry is in the filtered file list iff it
is in the listing and its name ends with one of `.sh`, `.bash`, `.py`,
`.pyw`, `.ps1`; an entry with any other name is not in the filtered list,
and deleting it from the listing leaves the generated document unchanged
(it never reaches the rendering stage and contributes nothing to the
output). -/
theorem scan_filter_correct (listing : List String) (name : String)
    (l₁ l₂ : List String) :
    (name ∈ filesOf listing ↔ name ∈ listing ∧ isScript name = true) ∧
    (isScript name = false → name ∉ filesOf listing) ∧
    (isScript name = false → run_output (l₁ ++ name :: l₂) = run_output (l₁ ++ l₂)) := by
  refine ⟨?_, ?_, ?_⟩
  · simp [filesOf, List.mem_filter]
  · intro h hmem
    rw [filesOf, List.mem_filter, h] at hmem
    exact Bool.false_ne_true hmem.2
  · intro h
    simp [run_output, filesOf, List.filter_append, List.filter_cons, h]

theorem scan_filter_correct_witness :
    run_output ["a.sh", "d.txt"] = run_output ["a.sh"] :=
  (scan_filter_correct [] "d.txt" ["a.sh"] []).2.2 (by decide)

/-- C5: Determinism / idempotence. The produced document (and indeed the
whole observable run: final file system, stdout, exit status) is a function
of the directory-listing sequence and the fixed constants, so two runs that
list the same names in the same order produce byte-identical output. -/
theorem deterministic_output (listing₁ listing₂ : List String)
    (fs0 : String → Option String) (h : listing₁ = listing₂) :
    run_output listing₁ = run_output listing₂ ∧
    runScript (Except.ok listing₁) none fs0 = runScript (Except.ok listing₂) none fs0 := by
  subst h
  exact ⟨rfl, rfl⟩

theorem deterministic_output_witness :
    run_output ["a.sh", "b.py"] = run_output ["a.sh", "b.py"] :=
  (deterministic_output ["a.sh", "b.py"] ["a.sh", "b.py"] (fun _ => none) rfl).1

/-- C9: Write effect and frame. On a successful run the rendered document
is written to the fixed path `<scripts_dir>/index.html`, replacing whatever
any prior file system held at that path; every other path is untouched; and
the only other observable effect is the single success line on stdout
(exit status 0). -/
theorem write_effect_frame (listing : List String) (fs0 : String → Option String) :
    (runScript (Except.ok listing) none fs0).fileSys index_path = some (run_output listing) ∧
    (∀ p, p ≠ index_path → (runScript (Except.ok listing) none fs0).fileSys p = fs0 p) ∧
    (runScript (Except.ok listing) none fs0).stdout = [success_msg] ∧
    (runScript (Except.ok listing) none fs0).exitCode = 0 := by
  refine ⟨by simp [runScript], ?_, rfl, rfl⟩
  intro p hp
  simp [runScript, hp]

theorem write_effect_frame_witness :
    (runScript (Except.ok ["a.sh"]) none (fun _ => none)).fileSys "./scripts/other.txt" = none :=
  (write_effect_frame ["a.sh"] (fun _ => none)).2.1 "./scripts/other.txt" (by decide)

/-- C2: Install-command classification. A file name ending in `.sh` or
`.bash` gets exactly the Linux fetch prefix followed by the single-quoted
base-URL-plus-name, piped to `bash`; names ending in `.py`/`.pyw` get the
same fetch piped to `python3`; names ending in `.ps1` get the Windows fetch
(`Invoke-RestMethod`) piped to `Invoke-Expression`. -/
theorem install_command_classification (f : String) :
    (pyEndsWith f ".sh" = true ∨ pyEndsWith f ".bash" = true →
      installCommand f = "curl -sSL \x27https://edoardotosin.com/tools/" ++ f ++ "\x27 | bash") ∧
    (pyEndsWith f ".py" = true ∨ pyEndsWith f ".pyw" = true →
      installCommand f =
        "curl -sSL \x27https://edoardotosin.com/tools/" ++ f ++ "\x27 | python3") ∧
    (pyEndsWith f ".ps1" = true →
      installCommand f =
        "Invoke-RestMethod \x27https://edoardotosin.com/tools/" ++ f ++
          "\x27 | Invoke-Expression") := by
  have hfuse1 : curl_linux ++ " \x27" ++ base_url =
      "curl -sSL \x27https://edoardotosin.com/tools/" := by decide
  have hfuse2 : curl_win ++ " \x27" ++ base_url =
      "Invoke-RestMethod \x27https://edoardotosin.com/tools/" := by decide
  refine ⟨fun h => ?_, fun h => ?_, fun h => ?_⟩
  · unfold installCommand
    rw [branchOf_shell f h]
    show curl_linux ++ " \x27" ++ base_url ++ f ++ "\x27 | bash" = _
    rw [← hfuse1]
  · unfold installCommand
    rw [branchOf_python f h]
    show curl_linux ++ " \x27" ++ base_url ++ f ++ "\x27 | python3" = _
    rw [← hfuse1]
  · unfold installCommand
    rw [branchOf_powershell f h]
    show curl_win ++ " \x27" ++ base_url ++ f ++ "\x27 | Invoke-Expression" = _
    rw [← hfuse2]

theorem install_command_classification_witness :
    installCommand "x.sh" = "curl -sSL \x27https://edoardotosin.com/tools/" ++ "x.sh" ++
      "\x27 | bash" :=
  (install_command_classification "x.sh").1 (Or.inl (by decide))

/-- C8: Unreachable fallback. The rendering cascade has a defensive
`Unsupported file type` branch (`Branch.unsupported`, rendering
`liUnsupported`); whenever a file name passes the scan filter (it ends in
`.sh`, `.bash`, `.py`, `.pyw`, or `.ps1`), that branch is not the one
taken. -/
theorem fallback_branch_unreachable (f : String) (h : isScript f = true) :
    branchOf f ≠ Branch.unsupported := by
  unfold isScript at h
  simp only [Bool.or_eq_true] at h
  rcases h with ((((h | h) | h) | h) | h)
  · rw [branchOf_shell f (Or.inl h)]; decide
  · rw [branchOf_shell f (Or.inr h)]; decide
  · rw [branchOf_python f (Or.inl h)]; decide
  · rw [branchOf_python f (Or.inr h)]; decide
  · rw [branchOf_powershell f h]; decide

theorem fallback_branch_unreachable_witness :
    branchOf "x.sh" ≠ Branch.unsupported :=
  fallback_branch_unreachable "x.sh" (by decide)

/-- C6: Top-level error handling. If the directory listing fails with
message `e`, or the listing succeeds and the write fails with message `e`,
the run prints exactly `Error: <e>`, exits with status 0 (the process
terminates normally, no exception propagates), and the success message is
not printed. -/
theorem top_level_error_handling (listing : Except String (List String))
    (writeErr : Option String) (fs0 : String → Option String) (e : String)
    (h : listing = Except.error e ∨ ∃ l, listing = Except.ok l ∧ writeErr = some e) :
    (runScript listing writeErr fs0).stdout = ["Error: " ++ e] ∧
    (runScript listing writeErr fs0).exitCode = 0 ∧
    success_msg ∉ (runScript listing writeErr fs0).stdout := by
  have hne : ("Error: " ++ e) ≠ success_msg := by
    intro heq
    have hd := congrArg String.data heq
    rw [String.data_append] at hd
    rw [show ("Error: " : String).data = 'E' :: "rror: ".data from by decide,
      List.cons_append,
      show success_msg.data = 'H' :: "TML file generated successfully!".data from by decide]
      at hd
    injection hd with hc _
    exact absurd hc (by decide)
  rcases h with rfl | ⟨l, rfl, rfl⟩
  · refine ⟨rfl, rfl, ?_⟩
    intro hmem
    have hs : (runScript (Except.error e) writeErr fs0).stdout = ["Error: " ++ e] := rfl
    rw [hs, List.mem_singleton] at hmem
    exact hne hmem.symm
  · refine ⟨rfl, rfl, ?_⟩
    intro hmem
    have hs : (runScript (Except.ok l) (some e) fs0).stdout = ["Error: " ++ e] := rfl
    rw [hs, List.mem_singleton] at hmem
    exact hne hmem.symm

theorem top_level_error_handling_witness :
    (runScript (Except.error "No such file or directory") none (fun _ => none)).stdout =
      ["Error: " ++ "No such file or directory"] :=
  (top_level_error_handling (Except.error "No such file or directory") none
    (fun _ => none) "No such file or directory" (Or.inl rfl)).1

/-- C4: Rendered-page invariant. For every filtered file list the output is
one complete document: it starts with `<!DOCTYPE html>` and ends with
`</html>` plus newline, and it is the fixed template around the column
markup; the column markup consists of exactly `num_columns` column
containers (a `<div>` wrapping a single `<ul>`), the list items of the
columns taken together are exactly one `listItem` per input file, and the
columns partition the input list, so each item sits under exactly one
column container. -/
theorem rendered_page_invariant (fs : List String) :
    html_content fs = page_head ++ generate_list_items fs ++ page_tail ∧
    "<!DOCTYPE html>".data <+: (html_content fs).data ∧
    "</html>\n".data <:+ (html_content fs).data ∧
    generate_list_items fs = joinSep "\n" ((columnsOf fs).map columnDiv) ∧
    (∀ col, columnDiv col =
      "<div style=\"float:left; width:33%;\">" ++ columnUl col ++ "</div>") ∧
    (∀ col, columnUl col = "<ul>" ++ columnItems col ++ "</ul>") ∧
    (∀ col, columnItems col = joinSep "\n" (col.map listItem)) ∧
    (columnsOf fs).length = num_columns ∧
    ((columnsOf fs).map (List.map listItem)).flatten = fs.map listItem ∧
    (columnsOf fs).flatten = fs := by
  refine ⟨rfl, ?_, ?_, rfl, fun _ => rfl, fun _ => rfl, fun _ => rfl, rfl, ?_,
    columns_join fs⟩
  · have hsplit : html_content fs =
        "<!DOCTYPE html>\n" ++ (joinSep "\n" page_head_lines ++ "\n    " ++
          generate_list_items fs ++ page_tail) := by
      simp [html_content, page_head, String.append_assoc]
    rw [hsplit, String.data_append]
    rw [show ("<!DOCTYPE html>\n" : String).data =
      "<!DOCTYPE html>".data ++ ['\n'] from by decide]
    rw [List.append_assoc]
    exact List.prefix_append _ _
  · have hsplit : html_content fs =
        (page_head ++ generate_list_items fs ++
          ("\n" ++ joinSep "\n" page_tail_lines ++ "\n")) ++ "</html>\n" := by
      simp [html_content, page_tail, String.append_assoc]
    rw [hsplit, String.data_append]
    exact List.suffix_append _ _
  · rw [← List.map_flatten, columns_join fs]

set_option maxRecDepth 4000 in
/-- C7: Empty-input example. For the empty filtered file list the column
markup is exactly three empty `<ul></ul>` columns, and the whole generated
document contains exactly three occurrences of `<ul></ul>`, exactly three
of `<ul>` (so every `<ul>` is empty), and no `<li>` at all. -/
theorem empty_input_output :
    generate_list_items [] =
      "<div style=\"float:left; width:33%;\"><ul></ul></div>\n<div style=\"float:left; width:33%;\"><ul></ul></div>\n<div style=\"float:left; width:33%;\"><ul></ul></div>" ∧
    countOcc "<ul></ul>".data (html_content []).data = 3 ∧
    countOcc "<ul>".data (html_content []).data = 3 ∧
    countOcc "<li>".data (html_content []).data = 0 := by
  have hdoc : (html_content []).data = (emptyDocChunks.map String.data).flatten := by
    simp [html_content, page_head, page_tail, emptyDocChunks, String.data_append,
      joinSep_data, List.map_append, List.flatten_append, List.append_assoc]
  refine ⟨by decide, ?_, ?_, ?_⟩
  · rw [hdoc, countOcc_chunks _ _ (by decide)]
    decide
  · rw [hdoc, countOcc_chunks _ _ (by decide)]
    decide
  · rw [hdoc, countOcc_chunks _ _ (by decide)]
    decide

/-- C10: Implicit case-sensitive filtering. The extension match is
case-sensitive: a directory entry whose name ends only with an uppercase
or mixed-case variant of a recognized suffix (a case variant different
from the suffix itself) is excluded from the filtered list, and deleting
it from the listing leaves the generated document unchanged, so it appears
nowhere in the output. -/
theorem case_sensitive_filtering (listing l₁ l₂ : List String) (name v s : String)
    (hs : s ∈ recognized_suffixes) (hvar : caseVariantL v.data s.data = true)
    (hne : v ≠ s) (hv : pyEndsWith name v = true) :
    isScript name = false ∧ name ∉ filesOf listing ∧
    run_output (l₁ ++ name :: l₂) = run_output (l₁ ++ l₂) := by
  have hvd : v.data <:+ name.data := by
    unfold pyEndsWith at hv
    rwa [List.isSuffixOf_iff_suffix] at hv
  have hne' : v.data ≠ s.data := by
    intro hd
    apply hne
    cases v with
    | mk vd =>
      cases s with
      | mk sd => exact congrArg String.mk hd
  have hfalse : isScript name = false := by
    fin_cases hs
    · exact isScript_false_of_variant name v.data ".sh".data
        (map_lower_of_caseVariant v.data ".sh".data hvar (by decide)) hne' hvd
        (by intro t ht; fin_cases ht <;> exact ⟨by decide, by decide, by decide⟩)
    · exact isScript_false_of_variant name v.data ".bash".data
        (map_lower_of_caseVariant v.data ".bash".data hvar (by decide)) hne' hvd
        (by intro t ht; fin_cases ht <;> exact ⟨by decide, by decide, by decide⟩)
    · exact isScript_false_of_variant name v.data ".py".data
        (map_lower_of_caseVariant v.data ".py".data hvar (by decide)) hne' hvd
        (by intro t ht; fin_cases ht <;> exact ⟨by decide, by decide, by decide⟩)
    · exact isScript_false_of_variant name v.data ".pyw".data
        (map_lower_of_caseVariant v.data ".pyw".data hvar (by decide)) hne' hvd
        (by intro t ht; fin_cases ht <;> exact ⟨by decide, by decide, by decide⟩)
    · exact isScript_false_of_variant name v.data ".ps1".data
        (map_lower_of_caseVariant v.data ".ps1".data hvar (by decide)) hne' hvd
        (by intro t ht; fin_cases ht <;> exact ⟨by decide, by decide, by decide⟩)
  refine ⟨hfalse, ?_, ?_⟩
  · intro hmem
    rw [filesOf, List.mem_filter, hfalse] at hmem
    exact Bool.false_ne_true hmem.2
  · simp [run_output, filesOf, List.filter_append, List.filter_cons, hfalse]

theorem case_sensitive_filtering_witness : isScript "X.SH" = false :=
  (case_sensitive_filtering [] [] [] "X.SH" ".SH" ".sh" (by decide) (by decide)
    (by decide) (by decide)).1

end GenIndex
